import Mathlib

/-!
Verification of the Mergington High School activities service.

The service (src/app.py, src/database.py) is a CRUD application over two
relational tables: `activities` (id, name, description, schedule,
max_participants) and `participants` (id, activity_id, email).  We give a
shallow embedding: the persisted state is a `DB` record holding the two
tables as lists together with the autoincrement counters, and the three
request handlers become pure functions on `DB`, with HTTP errors modelled
by an `Except` result carrying the status code and detail string.
-/

namespace School

/-- The `activities` table row (src/database.py, class Activity). -/
structure Activity where
  id : Nat
  name : String
  description : String
  schedule : String
  max_participants : Nat
deriving Repr, DecidableEq

/-- The `participants` table row (src/database.py, class Participant). -/
structure Participant where
  id : Nat
  activity_id : Nat
  email : String
deriving Repr, DecidableEq

/-- The persisted state: both tables plus the autoincrement id counters
(SQLite primary keys start at 1). -/
structure DB where
  activities : List Activity
  participants : List Participant
  nextActivityId : Nat
  nextParticipantId : Nat
deriving Repr, DecidableEq

/-- An HTTP error as raised by `HTTPException(status_code, detail)`. -/
structure ApiError where
  status : Nat
  detail : String
deriving Repr, DecidableEq

/-- `db.query(Activity).filter(Activity.name == name).first()`. -/
def findActivity (db : DB) (name : String) : Option Activity :=
  db.activities.find? (fun a => a.name == name)

/-- `db.query(Participant).filter(activity_id == aid, email == e).first()`. -/
def findParticipant (db : DB) (aid : Nat) (email : String) : Option Participant :=
  db.participants.find? (fun p => p.activity_id == aid && p.email == email)

/-- `db.query(Participant).filter(Participant.activity_id == aid).count()`. -/
def participantCount (db : DB) (aid : Nat) : Nat :=
  (db.participants.filter (fun p => p.activity_id == aid)).length

/-- The list of emails of the participants of activity `aid`, in row order
(the query in `get_activities`). -/
def participantEmails (db : DB) (aid : Nat) : List String :=
  (db.participants.filter (fun p => p.activity_id == aid)).map
    (fun p => p.email)

/-- Number of participant rows with the given (activity_id, email) pair. -/
def pairCount (db : DB) (aid : Nat) (email : String) : Nat :=
  (db.participants.filter
    (fun p => p.activity_id == aid && p.email == email)).length

/-- `POST /activities/{activity_name}/signup` (src/app.py,
`signup_for_activity`): validate the activity exists, reject a duplicate
(activity, email) pair, reject a full activity, otherwise insert a new
participant row and commit. -/
def signup_for_activity (db : DB) (activity_name email : String) :
    Except ApiError (DB × String) :=
  match findActivity db activity_name with
  | none => .error ⟨404, "Activity not found"⟩
  | some activity =>
    match findParticipant db activity.id email with
    | some _ => .error ⟨400, "Student is already signed up"⟩
    | none =>
      if participantCount db activity.id ≥ activity.max_participants then
        .error ⟨400, "Activity is full"⟩
      else
        .ok ({ db with
                participants := db.participants ++
                  [⟨db.nextParticipantId, activity.id, email⟩],
                nextParticipantId := db.nextParticipantId + 1 },
             "Signed up " ++ email ++ " for " ++ activity_name)

/-- `DELETE /activities/{activity_name}/unregister` (src/app.py,
`unregister_from_activity`): validate the activity exists, look up the
participant row for (activity, email), delete it and commit. -/
def unregister_from_activity (db : DB) (activity_name email : String) :
    Except ApiError (DB × String) :=
  match findActivity db activity_name with
  | none => .error ⟨404, "Activity not found"⟩
  | some activity =>
    match findParticipant db activity.id email with
    | none => .error ⟨400, "Student is not signed up for this activity"⟩
    | some _ =>
      .ok ({ db with
              participants := db.participants.eraseP
                (fun p => p.activity_id == activity.id && p.email == email) },
           "Unregistered " ++ email ++ " from " ++ activity_name)

/-- The value of `Activity.to_dict(participant_emails)`
(src/database.py). -/
structure ActivityInfo where
  description : String
  schedule : String
  max_participants : Nat
  participants : List String
deriving Repr, DecidableEq

/-- `Activity.to_dict` (src/database.py). -/
def to_dict (a : Activity) (participants : List String) : ActivityInfo :=
  ⟨a.description, a.schedule, a.max_participants, participants⟩

/-- `GET /activities` (src/app.py, `get_activities`): loop over all
activities, fetch the participant emails of each and accumulate
`result[activity.name] = activity.to_dict(participant_emails)`. -/
def get_activities (db : DB) : List (String × ActivityInfo) :=
  db.activities.foldl
    (fun result activity =>
      result ++
        [(activity.name, to_dict activity (participantEmails db activity.id))])
    []

/-- One entry of the `activities_data` seed list (src/database.py). -/
structure SeedActivity where
  name : String
  description : String
  schedule : String
  max_participants : Nat
  participants : List String
deriving Repr, DecidableEq

/-- The fixed seed catalog `activities_data` (src/database.py). -/
def activities_data : List SeedActivity :=
  [⟨"Chess Club",
    "Learn strategies and compete in chess tournaments",
    "Fridays, 3:30 PM - 5:00 PM", 12,
    ["michael@mergington.edu", "daniel@mergington.edu"]⟩,
   ⟨"Programming Class",
    "Learn programming fundamentals and build software projects",
    "Tuesdays and Thursdays, 3:30 PM - 4:30 PM", 20,
    ["emma@mergington.edu", "sophia@mergington.edu"]⟩,
   ⟨"Gym Class",
    "Physical education and sports activities",
    "Mondays, Wednesdays, Fridays, 2:00 PM - 3:00 PM", 30,
    ["john@mergington.edu", "olivia@mergington.edu"]⟩,
   ⟨"Soccer Team",
    "Join the school soccer team and compete in matches",
    "Tuesdays and Thursdays, 4:00 PM - 5:30 PM", 22,
    ["liam@mergington.edu", "noah@mergington.edu"]⟩,
   ⟨"Basketball Team",
    "Practice and play basketball with the school team",
    "Wednesdays and Fridays, 3:30 PM - 5:00 PM", 15,
    ["ava@mergington.edu", "mia@mergington.edu"]⟩,
   ⟨"Art Club",
    "Explore your creativity through painting and drawing",
    "Thursdays, 3:30 PM - 5:00 PM", 15,
    ["amelia@mergington.edu", "harper@mergington.edu"]⟩,
   ⟨"Drama Club",
    "Act, direct, and produce plays and performances",
    "Mondays and Wednesdays, 4:00 PM - 5:30 PM", 20,
    ["ella@mergington.edu", "scarlett@mergington.edu"]⟩,
   ⟨"Math Club",
    "Solve challenging problems and participate in math competitions",
    "Tuesdays, 3:30 PM - 4:30 PM", 10,
    ["james@mergington.edu", "benjamin@mergington.edu"]⟩,
   ⟨"Debate Team",
    "Develop public speaking and argumentation skills",
    "Fridays, 4:00 PM - 5:30 PM", 12,
    ["charlotte@mergington.edu", "henry@mergington.edu"]⟩]

/-- Inserting one seed catalog entry: create the Activity row (the flush
assigns its id), then add one Participant row per listed email. -/
def insertSeedActivity (db : DB) (d : SeedActivity) : DB :=
  let activity : Activity :=
    ⟨db.nextActivityId, d.name, d.description, d.schedule, d.max_participants⟩
  let db1 : DB :=
    { db with activities := db.activities ++ [activity],
              nextActivityId := db.nextActivityId + 1 }
  d.participants.foldl
    (fun s email =>
      { s with participants := s.participants ++
                 [⟨s.nextParticipantId, activity.id, email⟩],
               nextParticipantId := s.nextParticipantId + 1 })
    db1

/-- `seed_initial_data` (src/database.py): skip if any activity exists,
otherwise insert the whole catalog and commit. -/
def seed_initial_data (db : DB) : DB :=
  if db.activities.length > 0 then db
  else activities_data.foldl insertSeedActivity db

/-- A fresh store, as produced by `init_db` on a new database file. -/
def emptyDB : DB := ⟨[], [], 1, 1⟩

/-- The state after startup: `init_db()` then `seed_initial_data()`. -/
def seededDB : DB := seed_initial_data emptyDB

/-- One invocation of a state-mutating exposed handler. -/
inductive Op where
  | signup (activity_name email : String)
  | unregister (activity_name email : String)
deriving Repr, DecidableEq

/-- The state after one handler call: the new state on success, the
unchanged state when the handler raises (nothing was added or committed
before the raise). -/
def applyOp (db : DB) (op : Op) : DB :=
  match op with
  | .signup n e =>
    match signup_for_activity db n e with
    | .ok (db', _) => db'
    | .error _ => db
  | .unregister n e =>
    match unregister_from_activity db n e with
    | .ok (db', _) => db'
    | .error _ => db

/-- The state after a sequence of handler calls, applied one at a time. -/
def runOps (db : DB) (ops : List Op) : DB := ops.foldl applyOp db

end School

namespace School

/-- Participant rows `p` and `q` differ in the (activity, email) pair. -/
def distinctPair (p q : Participant) : Prop :=
  p.activity_id ≠ q.activity_id ∨ p.email ≠ q.email

instance : DecidableRel distinctPair := fun p q => by
  unfold distinctPair; infer_instance

/-- The data-model invariant maintained by the handlers: activity ids are
pairwise distinct, no activity is over capacity, and no (activity, email)
pair appears twice among the participant rows. -/
def Inv (db : DB) : Prop :=
  (db.activities.map (fun a => a.id)).Nodup ∧
  (∀ a ∈ db.activities, participantCount db a.id ≤ a.max_participants) ∧
  db.participants.Pairwise distinctPair

/-- Inversion of a successful signup: the activity was found, the
(activity, email) pair was absent, the activity was not full, and the new
state appends exactly one participant row. -/
theorem signup_ok_inv {db : DB} {n e : String} {db' : DB} {m : String}
    (h : signup_for_activity db n e = .ok (db', m)) :
    ∃ act, findActivity db n = some act ∧
      findParticipant db act.id e = none ∧
      participantCount db act.id < act.max_participants ∧
      m = "Signed up " ++ e ++ " for " ++ n ∧
      db' = { db with
               participants := db.participants ++
                 [⟨db.nextParticipantId, act.id, e⟩],
               nextParticipantId := db.nextParticipantId + 1 } := by
  unfold signup_for_activity at h
  cases hf : findActivity db n with
  | none => simp [hf] at h
  | some act =>
    simp only [hf] at h
    cases hp : findParticipant db act.id e with
    | some q => simp [hp] at h
    | none =>
      simp only [hp] at h
      by_cases hc : participantCount db act.id ≥ act.max_participants
      · simp [hc] at h
      · rw [if_neg hc] at h
        simp only [Except.ok.injEq, Prod.mk.injEq] at h
        exact ⟨act, rfl, hp, by omega, h.2.symm, h.1.symm⟩

/-- Inversion of a successful unregister: the activity was found, a row
for the (activity, email) pair was found, and the new state erases the
first such row. -/
theorem unregister_ok_inv {db : DB} {n e : String} {db' : DB} {m : String}
    (h : unregister_from_activity db n e = .ok (db', m)) :
    ∃ act p, findActivity db n = some act ∧
      findParticipant db act.id e = some p ∧
      m = "Unregistered " ++ e ++ " from " ++ n ∧
      db' = { db with
               participants := db.participants.eraseP
                 (fun q => q.activity_id == act.id && q.email == e) } := by
  unfold unregister_from_activity at h
  cases hf : findActivity db n with
  | none => simp [hf] at h
  | some act =>
    simp only [hf] at h
    cases hp : findParticipant db act.id e with
    | none => simp [hp] at h
    | some p =>
      simp only [hp] at h
      simp only [Except.ok.injEq, Prod.mk.injEq] at h
      exact ⟨act, p, rfl, hp, h.2.symm, h.1.symm⟩

/-- A successful signup preserves the data-model invariant. -/
theorem inv_signup_ok {db db' : DB} {n e m : String}
    (h : signup_for_activity db n e = .ok (db', m)) (hinv : Inv db) :
    Inv db' := by
  obtain ⟨act, hf, hp, hc, -, hdb⟩ := signup_ok_inv h
  have hact : act ∈ db.activities := List.mem_of_find?_eq_some hf
  have hnodup := hinv.1
  subst hdb
  refine ⟨hinv.1, ?_, ?_⟩
  · intro a ha
    have ha' : a ∈ db.activities := ha
    show ((db.participants ++
        [(⟨db.nextParticipantId, act.id, e⟩ : Participant)]).filter
      (fun p => p.activity_id == a.id)).length ≤ a.max_participants
    rw [List.filter_append, List.length_append]
    by_cases hid : act.id = a.id
    · have haeq : a = act :=
        List.inj_on_of_nodup_map hnodup ha' hact (by rw [hid])
      subst haeq
      have hcount := hc
      simp only [participantCount] at hcount
      simp [hid]
      omega
    · have : (([⟨db.nextParticipantId, act.id, e⟩] : List Participant).filter
        (fun p => p.activity_id == a.id)).length = 0 := by
        simp [hid]
      rw [this]
      simpa using hinv.2.1 a ha'
  · show (db.participants ++
      [(⟨db.nextParticipantId, act.id, e⟩ : Participant)]).Pairwise distinctPair
    rw [List.pairwise_append]
    refine ⟨hinv.2.2, by simp, ?_⟩
    intro p hpmem x hx
    simp only [List.mem_singleton] at hx
    subst hx
    have hnone := List.find?_eq_none.mp hp p hpmem
    simp only [Bool.and_eq_true, beq_iff_eq, not_and] at hnone
    unfold distinctPair
    by_cases hpa : p.activity_id = act.id
    · exact Or.inr (by simpa using hnone hpa)
    · exact Or.inl (by simpa using hpa)

/-- A successful unregister preserves the data-model invariant. -/
theorem inv_unregister_ok {db db' : DB} {n e m : String}
    (h : unregister_from_activity db n e = .ok (db', m)) (hinv : Inv db) :
    Inv db' := by
  obtain ⟨act, p, hf, hp, -, hdb⟩ := unregister_ok_inv h
  subst hdb
  have hsub : List.Sublist
      (db.participants.eraseP
        (fun q => q.activity_id == act.id && q.email == e))
      db.participants :=
    List.eraseP_sublist _
  refine ⟨hinv.1, ?_, List.Pairwise.sublist hsub hinv.2.2⟩
  intro a ha
  have ha' : a ∈ db.activities := ha
  show ((db.participants.eraseP
      (fun q => q.activity_id == act.id && q.email == e)).filter
      (fun q => q.activity_id == a.id)).length ≤ a.max_participants
  calc ((db.participants.eraseP
          (fun q => q.activity_id == act.id && q.email == e)).filter
          (fun q => q.activity_id == a.id)).length
      ≤ (db.participants.filter (fun q => q.activity_id == a.id)).length :=
        (hsub.filter _).length_le
    _ ≤ a.max_participants := hinv.2.1 a ha'

/-- Every single handler call preserves the data-model invariant. -/
theorem inv_applyOp (db : DB) (op : Op) (hinv : Inv db) :
    Inv (applyOp db op) := by
  cases op with
  | signup n e =>
    cases h : signup_for_activity db n e with
    | error err => simpa [applyOp, h] using hinv
    | ok v =>
      obtain ⟨db', m⟩ := v
      simpa [applyOp, h] using inv_signup_ok h hinv
  | unregister n e =>
    cases h : unregister_from_activity db n e with
    | error err => simpa [applyOp, h] using hinv
    | ok v =>
      obtain ⟨db', m⟩ := v
      simpa [applyOp, h] using inv_unregister_ok h hinv

/-- Any sequence of handler calls preserves the data-model invariant. -/
theorem inv_runOps (db : DB) (ops : List Op) (hinv : Inv db) :
    Inv (runOps db ops) := by
  induction ops generalizing db with
  | nil => exact hinv
  | cons op rest ih => exact ih (applyOp db op) (inv_applyOp db op hinv)

/-- The seeded startup state satisfies the data-model invariant. -/
theorem inv_seededDB : Inv seededDB := by
  refine ⟨by decide, by decide, by decide⟩

end School

namespace School

/-- A pairwise-distinct participant list has at most one row matching any
given (activity, email) pair. -/
theorem length_filter_pair_le_one {l : List Participant}
    (h : l.Pairwise distinctPair) (aid : Nat) (e : String) :
    (l.filter (fun p => p.activity_id == aid && p.email == e)).length ≤ 1 := by
  induction l with
  | nil => simp
  | cons x xs ih =>
    rw [List.pairwise_cons] at h
    by_cases hx : (x.activity_id == aid && x.email == e) = true
    · rw [List.filter_cons, if_pos hx]
      have hxa : x.activity_id = aid ∧ x.email = e := by
        simpa [Bool.and_eq_true, beq_iff_eq] using hx
      have hnil : xs.filter (fun p => p.activity_id == aid && p.email == e)
          = [] := by
        rw [List.filter_eq_nil_iff]
        intro q hq hq'
        have hqa : q.activity_id = aid ∧ q.email = e := by
          simpa [Bool.and_eq_true, beq_iff_eq] using hq'
        rcases h.1 q hq with hd | hd
        · exact hd (hxa.1.trans hqa.1.symm)
        · exact hd (hxa.2.trans hqa.2.symm)
      rw [hnil]
      simp
    · rw [List.filter_cons, if_neg hx]
      exact ih h.2

/-- When `find?` locates an element, the list splits around that very
element and `eraseP` removes exactly it. -/
theorem find?_eraseP_split {α : Type} {pred : α → Bool} {l : List α} {x : α}
    (h : l.find? pred = some x) :
    ∃ l₁ l₂, (∀ b ∈ l₁, ¬pred b) ∧ pred x ∧
      l = l₁ ++ x :: l₂ ∧ l.eraseP pred = l₁ ++ l₂ := by
  induction l with
  | nil => simp at h
  | cons y ys ih =>
    by_cases hy : pred y
    · rw [List.find?_cons_of_pos _ hy] at h
      obtain rfl : y = x := by simpa using h
      exact ⟨[], ys, by simp, hy, rfl, by simp [List.eraseP_cons_of_pos hy]⟩
    · rw [List.find?_cons_of_neg _ hy] at h
      obtain ⟨l₁, l₂, h1, h2, h3, h4⟩ := ih h
      refine ⟨y :: l₁, l₂, ?_, h2, by simp [h3],
        by simp [List.eraseP_cons_of_neg hy, h4]⟩
      intro b hb
      rcases List.mem_cons.mp hb with rfl | hb
      · exact hy
      · exact h1 b hb

/-- In a pairwise-distinct participant list, erasing the row found for a
pair leaves no row for that pair. -/
theorem find?_eraseP_none {l : List Participant} {aid : Nat} {e : String}
    {x : Participant} (hpw : l.Pairwise distinctPair)
    (h : l.find? (fun p => p.activity_id == aid && p.email == e) = some x) :
    (l.eraseP (fun p => p.activity_id == aid && p.email == e)).find?
      (fun p => p.activity_id == aid && p.email == e) = none := by
  obtain ⟨l₁, l₂, h1, h2, h3, h4⟩ := find?_eraseP_split h
  have hxa : x.activity_id = aid ∧ x.email = e := by
    simpa [Bool.and_eq_true, beq_iff_eq] using h2
  rw [h4, List.find?_eq_none]
  intro q hq hq'
  have hqa : q.activity_id = aid ∧ q.email = e := by
    simpa [Bool.and_eq_true, beq_iff_eq] using hq'
  rcases List.mem_append.mp hq with hql | hqr
  · exact h1 q hql hq'
  · subst h3
    have hxq : distinctPair x q := by
      have hcons := (List.pairwise_append.mp hpw).2.1
      exact (List.pairwise_cons.mp hcons).1 q hqr
    rcases hxq with hd | hd
    · exact hd (hxa.1.trans hqa.1.symm)
    · exact hd (hxa.2.trans hqa.2.symm)

/-- Accumulating one mapped element at a time is the same as `map`. -/
theorem foldl_append_singleton {α β : Type} (f : α → β) (l : List α)
    (acc : List β) :
    l.foldl (fun r x => r ++ [f x]) acc = acc ++ l.map f := by
  induction l generalizing acc with
  | nil => simp
  | cons x xs ih => simp [ih]

/-- The Chess Club row exactly as created by the seed (it gets id 1). -/
def chessClubRow : Activity :=
  ⟨1, "Chess Club", "Learn strategies and compete in chess tournaments",
   "Fridays, 3:30 PM - 5:00 PM", 12⟩

/-- A small one-activity store (capacity 2) used to witness the handler
theorems on concrete inputs. -/
def demoDB : DB :=
  ⟨[⟨1, "Chess Club", "d", "s", 2⟩], [], 1, 1⟩

/-- Claim C1: starting from the seeded state, after any sequence of signup
and unregister operations applied one at a time through the exposed
handlers, no activity ever has more participant rows referencing it than
its max_participants. -/
theorem claim_C1 (ops : List Op) (a : Activity)
    (ha : a ∈ (runOps seededDB ops).activities) :
    participantCount (runOps seededDB ops) a.id ≤ a.max_participants :=
  (inv_runOps seededDB ops inv_seededDB).2.1 a ha

/-- Witness for C1: the empty operation sequence and the seeded Chess Club
row. -/
theorem claim_C1_witness :
    participantCount (runOps seededDB []) chessClubRow.id ≤
      chessClubRow.max_participants :=
  claim_C1 [] chessClubRow (by decide)

/-- Claim C2: at every state reachable from the seeded state through any
sequence of signup and unregister operations applied one at a time, at
most one participant row carries any given (activity id, email) pair. -/
theorem claim_C2 (ops : List Op) (aid : Nat) (e : String) :
    pairCount (runOps seededDB ops) aid e ≤ 1 := by
  unfold pairCount
  exact length_filter_pair_le_one
    (inv_runOps seededDB ops inv_seededDB).2.2 aid e

end School

namespace School

/-- After a successful unregister from a state without duplicate pairs, a
second unregister for the same pair finds no row and fails. -/
theorem unregister_twice {db db' : DB} {n e m : String}
    (hpw : db.participants.Pairwise distinctPair)
    (h : unregister_from_activity db n e = .ok (db', m)) :
    unregister_from_activity db' n e =
      .error ⟨400, "Student is not signed up for this activity"⟩ := by
  obtain ⟨act, p, hf, hp, -, hdb⟩ := unregister_ok_inv h
  subst hdb
  have hp' : db.participants.find?
      (fun q => q.activity_id == act.id && q.email == e) = some p := hp
  have hf2 : findActivity
      { db with
        participants := db.participants.eraseP
                          (fun q => q.activity_id == act.id && q.email == e) }
      n = some act := hf
  have hp2 : findParticipant
      { db with
        participants := db.participants.eraseP
                          (fun q => q.activity_id == act.id && q.email == e) }
      act.id e = none := find?_eraseP_none hpw hp'
  unfold unregister_from_activity
  simp only [hf2, hp2]

/-- Claim C3: signup evaluates its checks in order: missing activity gives
404 "Activity not found"; an existing (activity, email) row gives 400
"Student is already signed up" regardless of capacity; a full activity
gives 400 "Activity is full"; otherwise the row is inserted and the call
succeeds. -/
theorem claim_C3 (db : DB) (n e : String) :
    (findActivity db n = none →
      signup_for_activity db n e = .error ⟨404, "Activity not found"⟩) ∧
    (∀ act, findActivity db n = some act →
      (findParticipant db act.id e).isSome = true →
      signup_for_activity db n e =
        .error ⟨400, "Student is already signed up"⟩) ∧
    (∀ act, findActivity db n = some act →
      findParticipant db act.id e = none →
      act.max_participants ≤ participantCount db act.id →
      signup_for_activity db n e = .error ⟨400, "Activity is full"⟩) ∧
    (∀ act, findActivity db n = some act →
      findParticipant db act.id e = none →
      participantCount db act.id < act.max_participants →
      signup_for_activity db n e =
        .ok ({ db with
                participants := db.participants ++
                  [⟨db.nextParticipantId, act.id, e⟩],
                nextParticipantId := db.nextParticipantId + 1 },
             "Signed up " ++ e ++ " for " ++ n)) := by
  refine ⟨?_, ?_, ?_, ?_⟩
  · intro hf
    unfold signup_for_activity
    rw [hf]
  · intro act hf hp
    unfold signup_for_activity
    cases hps : findParticipant db act.id e with
    | none => rw [hps] at hp; simp at hp
    | some q => simp only [hf, hps]
  · intro act hf hp hge
    unfold signup_for_activity
    simp only [hf, hp]
    rw [if_pos hge]
  · intro act hf hp hlt
    unfold signup_for_activity
    simp only [hf, hp]
    rw [if_neg (by omega : ¬participantCount db act.id ≥ act.max_participants)]

/-- Witness for C3: a duplicate signup on the seeded state (Chess Club is
not full there) yields the already-signed-up error, not the full error. -/
theorem claim_C3_witness :
    signup_for_activity seededDB "Chess Club" "michael@mergington.edu" =
      .error ⟨400, "Student is already signed up"⟩ :=
  (claim_C3 seededDB "Chess Club" "michael@mergington.edu").2.1
    chessClubRow (by decide) (by decide)

/-- Claim C4: unregister fails with 404 "Activity not found" when the
activity is missing, fails with 400 "Student is not signed up for this
activity" when no row exists for the pair, and otherwise deletes exactly
the found row and succeeds; from any state reachable from the seeded
state, a second unregister immediately after a successful one fails with
the not-signed-up error. -/
theorem claim_C4 :
    (∀ db n e, findActivity db n = none →
      unregister_from_activity db n e =
        .error ⟨404, "Activity not found"⟩) ∧
    (∀ db n e act, findActivity db n = some act →
      findParticipant db act.id e = none →
      unregister_from_activity db n e =
        .error ⟨400, "Student is not signed up for this activity"⟩) ∧
    (∀ db n e act p, findActivity db n = some act →
      findParticipant db act.id e = some p →
      ∃ l₁ l₂, db.participants = l₁ ++ p :: l₂ ∧
        unregister_from_activity db n e =
          .ok ({ db with participants := l₁ ++ l₂ },
               "Unregistered " ++ e ++ " from " ++ n)) ∧
    (∀ ops n e db' m,
      unregister_from_activity (runOps seededDB ops) n e = .ok (db', m) →
      unregister_from_activity db' n e =
        .error ⟨400, "Student is not signed up for this activity"⟩) := by
  refine ⟨?_, ?_, ?_, ?_⟩
  · intro db n e hf
    unfold unregister_from_activity
    rw [hf]
  · intro db n e act hf hp
    unfold unregister_from_activity
    simp only [hf, hp]
  · intro db n e act p hf hp
    have hp' : db.participants.find?
        (fun q => q.activity_id == act.id && q.email == e) = some p := hp
    obtain ⟨l₁, l₂, h1, h2, h3, h4⟩ := find?_eraseP_split hp'
    refine ⟨l₁, l₂, h3, ?_⟩
    unfold unregister_from_activity
    simp only [hf, hp]
    rw [h4]
  · intro ops n e db' m h
    exact unregister_twice (inv_runOps seededDB ops inv_seededDB).2.2 h

/-- Witness for C4: unregister from a nonexistent activity gives 404, and
unregister of an email that is not signed up for the seeded Chess Club
gives the not-signed-up error. -/
theorem claim_C4_witness :
    unregister_from_activity seededDB "Knitting Club" "kid@mergington.edu" =
      .error ⟨404, "Activity not found"⟩ ∧
    unregister_from_activity seededDB "Chess Club" "nobody@mergington.edu" =
      .error ⟨400, "Student is not signed up for this activity"⟩ :=
  ⟨claim_C4.1 seededDB "Knitting Club" "kid@mergington.edu" (by decide),
   claim_C4.2.1 seededDB "Chess Club" "nobody@mergington.edu"
     chessClubRow (by decide) (by decide)⟩

end School

namespace School

/-- Claim C5: whenever signup(A, e) succeeds, running unregister(A, e) on
the resulting state succeeds and restores the participant table — hence
the participant set of every activity — to exactly its pre-signup
value. -/
theorem claim_C5 (db : DB) (n e : String) (db₁ : DB) (m : String)
    (h : signup_for_activity db n e = .ok (db₁, m)) :
    ∃ db₂ m₂, unregister_from_activity db₁ n e = .ok (db₂, m₂) ∧
      db₂.participants = db.participants ∧
      db₂.activities = db.activities ∧
      ∀ aid, participantEmails db₂ aid = participantEmails db aid := by
  obtain ⟨act, hf, hp, -, -, hdb⟩ := signup_ok_inv h
  subst hdb
  have hps : db.participants.find?
      (fun q => q.activity_id == act.id && q.email == e) = none := hp
  have hp1 : (db.participants ++
        [(⟨db.nextParticipantId, act.id, e⟩ : Participant)]).find?
      (fun q => q.activity_id == act.id && q.email == e)
      = some ⟨db.nextParticipantId, act.id, e⟩ := by
    rw [List.find?_append, hps]
    simp
  have hf1 : findActivity
      { db with
        participants := db.participants ++ [⟨db.nextParticipantId, act.id, e⟩],
        nextParticipantId := db.nextParticipantId + 1 }
      n = some act := hf
  have hp1' : findParticipant
      { db with
        participants := db.participants ++ [⟨db.nextParticipantId, act.id, e⟩],
        nextParticipantId := db.nextParticipantId + 1 }
      act.id e = some ⟨db.nextParticipantId, act.id, e⟩ := hp1
  have herase : (db.participants ++
        [(⟨db.nextParticipantId, act.id, e⟩ : Participant)]).eraseP
      (fun q => q.activity_id == act.id && q.email == e)
      = db.participants := by
    rw [List.eraseP_append_right _ (List.find?_eq_none.mp hps)]
    simp
  refine ⟨{ db with nextParticipantId := db.nextParticipantId + 1 },
          "Unregistered " ++ e ++ " from " ++ n, ?_, rfl, rfl, fun aid => rfl⟩
  unfold unregister_from_activity
  simp only [hf1, hp1']
  rw [herase]

/-- Witness for C5: signup then unregister on a one-activity store. -/
theorem claim_C5_witness :
    ∃ db₂ m₂, unregister_from_activity
        ⟨[⟨1, "Chess Club", "d", "s", 2⟩],
         [⟨1, 1, "kid@mergington.edu"⟩], 1, 2⟩
        "Chess Club" "kid@mergington.edu" = .ok (db₂, m₂) ∧
      db₂.participants = demoDB.participants ∧
      db₂.activities = demoDB.activities ∧
      ∀ aid, participantEmails db₂ aid = participantEmails demoDB aid :=
  claim_C5 demoDB "Chess Club" "kid@mergington.edu"
    ⟨[⟨1, "Chess Club", "d", "s", 2⟩], [⟨1, 1, "kid@mergington.edu"⟩], 1, 2⟩
    "Signed up kid@mergington.edu for Chess Club" rfl

/-- Claim C6: seeding an empty store inserts exactly 9 activities, each
with exactly 2 participant rows; the Chess Club row has capacity 12 and
participants michael and daniel; seeding a store that already has an
activity changes nothing. -/
theorem claim_C6 :
    seededDB.activities.length = 9 ∧
    (∀ a ∈ seededDB.activities, participantCount seededDB a.id = 2) ∧
    (∃ a, findActivity seededDB "Chess Club" = some a ∧
      a.max_participants = 12 ∧
      participantEmails seededDB a.id =
        ["michael@mergington.edu", "daniel@mergington.edu"]) ∧
    (∀ db : DB, 0 < db.activities.length → seed_initial_data db = db) := by
  refine ⟨by decide, by decide,
    ⟨chessClubRow, by decide, by decide, by decide⟩, ?_⟩
  intro db h
  unfold seed_initial_data
  rw [if_pos h]

/-- Witness for C6: the seeded Chess Club row has 2 participants, and
re-seeding the already-seeded store is a no-op. -/
theorem claim_C6_witness :
    participantCount seededDB chessClubRow.id = 2 ∧
    seed_initial_data seededDB = seededDB :=
  ⟨claim_C6.2.1 chessClubRow (by decide),
   claim_C6.2.2.2 seededDB (by decide)⟩

/-- Claim C7: listing activities always succeeds and returns one entry
per stored activity, keyed by activity name, carrying the
description, schedule, max_participants and exactly its participant
emails; on an empty store it returns the empty mapping.  (The handler is
a pure function of the state, so it has no side effect on the store.) -/
theorem claim_C7 (db : DB) :
    get_activities db =
      db.activities.map
        (fun a => (a.name, to_dict a (participantEmails db a.id))) ∧
    (get_activities db).length = db.activities.length ∧
    (db.activities = [] → get_activities db = []) := by
  have hmap : get_activities db =
      db.activities.map
        (fun a => (a.name, to_dict a (participantEmails db a.id))) := by
    unfold get_activities
    simpa using foldl_append_singleton
      (fun a : Activity => (a.name, to_dict a (participantEmails db a.id)))
      db.activities []
  refine ⟨hmap, ?_, ?_⟩
  · rw [hmap, List.length_map]
  · intro h
    rw [hmap, h]
    rfl

/-- Witness for C7: the empty store lists as the empty mapping. -/
theorem claim_C7_witness : get_activities emptyDB = [] :=
  (claim_C7 emptyDB).2.2 rfl

end School

namespace School

/-- Claim C8: no state-mutating handler call — successful or failing —
creates, deletes or mutates any Activity row; the activities table and its
id counter are untouched.  (The listing handler `get_activities` is a pure
function of the state in this embedding, so it mutates nothing by
construction.) -/
theorem claim_C8 (db : DB) (op : Op) :
    (applyOp db op).activities = db.activities ∧
    (applyOp db op).nextActivityId = db.nextActivityId := by
  cases op with
  | signup n e =>
    cases h : signup_for_activity db n e with
    | error err => simp [applyOp, h]
    | ok v =>
      obtain ⟨db', m⟩ := v
      obtain ⟨act, -, -, -, -, hdb⟩ := signup_ok_inv h
      subst hdb
      simp [applyOp, h]
  | unregister n e =>
    cases h : unregister_from_activity db n e with
    | error err => simp [applyOp, h]
    | ok v =>
      obtain ⟨db', m⟩ := v
      obtain ⟨act, p, -, -, -, hdb⟩ := unregister_ok_inv h
      subst hdb
      simp [applyOp, h]

/-- Claim C9: whenever signup or unregister returns an error (404 or 400),
the persisted state after the call is exactly the state before it: every
check precedes any insertion, deletion or commit, so failure is atomic. -/
theorem claim_C9 (db : DB) (n e : String) :
    (∀ err, signup_for_activity db n e = .error err →
      applyOp db (.signup n e) = db) ∧
    (∀ err, unregister_from_activity db n e = .error err →
      applyOp db (.unregister n e) = db) := by
  constructor
  · intro err h
    simp [applyOp, h]
  · intro err h
    simp [applyOp, h]

/-- Witness for C9: a signup for a nonexistent activity leaves the seeded
state unchanged. -/
theorem claim_C9_witness :
    applyOp seededDB (.signup "Knitting Club" "kid@mergington.edu")
      = seededDB :=
  (claim_C9 seededDB "Knitting Club" "kid@mergington.edu").1
    ⟨404, "Activity not found"⟩ rfl

/-- Claim C10: a successful signup appends exactly one new participant
row, carrying the target activity id and the given email, after all
pre-existing rows; the target activity gains exactly that email and every
other activity keeps its participant list unchanged. -/
theorem claim_C10 (db : DB) (n e : String) (db' : DB) (m : String)
    (h : signup_for_activity db n e = .ok (db', m)) :
    ∃ act, findActivity db n = some act ∧
      db'.participants = db.participants ++
        [⟨db.nextParticipantId, act.id, e⟩] ∧
      participantEmails db' act.id = participantEmails db act.id ++ [e] ∧
      ∀ aid, aid ≠ act.id →
        participantEmails db' aid = participantEmails db aid := by
  obtain ⟨act, hf, -, -, -, hdb⟩ := signup_ok_inv h
  subst hdb
  refine ⟨act, hf, rfl, ?_, ?_⟩
  · show ((db.participants ++
        [(⟨db.nextParticipantId, act.id, e⟩ : Participant)]).filter
      (fun p => p.activity_id == act.id)).map (fun p => p.email)
      = participantEmails db act.id ++ [e]
    simp [participantEmails, List.filter_append]
  · intro aid hne
    have hfalse : ((⟨db.nextParticipantId, act.id, e⟩ :
        Participant).activity_id == aid) = false := by
      simpa using Ne.symm hne
    show ((db.participants ++
        [(⟨db.nextParticipantId, act.id, e⟩ : Participant)]).filter
      (fun p => p.activity_id == aid)).map (fun p => p.email)
      = participantEmails db aid
    simp [participantEmails, List.filter_append, hfalse]

/-- Witness for C10: signup on the one-activity store appends the one new
row. -/
theorem claim_C10_witness :
    ∃ act, findActivity demoDB "Chess Club" = some act ∧
      (⟨[⟨1, "Chess Club", "d", "s", 2⟩],
        [⟨1, 1, "kid@mergington.edu"⟩], 1, 2⟩ : DB).participants
        = demoDB.participants ++
          [⟨demoDB.nextParticipantId, act.id, "kid@mergington.edu"⟩] ∧
      participantEmails
        ⟨[⟨1, "Chess Club", "d", "s", 2⟩],
         [⟨1, 1, "kid@mergington.edu"⟩], 1, 2⟩ act.id
        = participantEmails demoDB act.id ++ ["kid@mergington.edu"] ∧
      ∀ aid, aid ≠ act.id →
        participantEmails
          ⟨[⟨1, "Chess Club", "d", "s", 2⟩],
           [⟨1, 1, "kid@mergington.edu"⟩], 1, 2⟩ aid
          = participantEmails demoDB aid :=
  claim_C10 demoDB "Chess Club" "kid@mergington.edu"
    ⟨[⟨1, "Chess Club", "d", "s", 2⟩], [⟨1, 1, "kid@mergington.edu"⟩], 1, 2⟩
    "Signed up kid@mergington.edu for Chess Club" rfl

end School
